import Mathlib

/-!
Verification development for the VibeThinker fleet controller
(`mlx-servers/optimized_load_balancer.py` and
`mlx-servers/enhanced_server_manager.py`).

The Python source is shallowly embedded: every class becomes a structure,
every mutating method becomes a pure state-transition function, wall-clock
reads (`time.time()`) become explicit `now : ℚ` parameters, and the
behaviour of the network (HTTP response status, decoded `usage` field,
measured latency, raised exceptions) becomes an explicit outcome value.
Floating-point arithmetic of the source is modelled over `ℚ`.
-/

/-- Python `deque(maxlen := n)` append: add at the right, dropping from the
left whenever the length would exceed `n`. -/
def dequeAppend (maxlen : Nat) (xs : List ℚ) (x : ℚ) : List ℚ :=
  let ys := xs ++ [x]
  if maxlen < ys.length then ys.drop (ys.length - maxlen) else ys

/-- Mean of a list of rationals, `0` for the empty list (the source guards
`statistics.mean` with a truthiness test on the container). -/
def listMean (l : List ℚ) : ℚ :=
  if l = [] then 0 else l.sum / (l.length : ℚ)

/-- Embedding of `EnhancedCircuitBreaker.__init__` state
(`optimized_load_balancer.py`, lines 96-107).  The Python `state` field is a
string among `"closed"`, `"open"`, `"half-open"`; we keep it as a string. -/
structure EnhancedCircuitBreaker where
  failure_threshold : Nat
  recovery_timeout : ℚ
  failure_count : Nat
  success_count : Nat
  last_failure_time : ℚ
  last_success_time : ℚ
  state : String
  adaptive_threshold : Nat
deriving DecidableEq

/-- Constructor defaults of `EnhancedCircuitBreaker.__init__`. -/
def EnhancedCircuitBreaker.init (failure_threshold : Nat) (recovery_timeout : ℚ) :
    EnhancedCircuitBreaker :=
  { failure_threshold := failure_threshold
    recovery_timeout := recovery_timeout
    failure_count := 0
    success_count := 0
    last_failure_time := 0
    last_success_time := 0
    state := "closed"
    adaptive_threshold := failure_threshold }

/-- Embedding of `EnhancedCircuitBreaker.record_success` (lines 109-116);
`now` stands for the `time.time()` read. -/
def EnhancedCircuitBreaker.record_success (cb : EnhancedCircuitBreaker) (now : ℚ) :
    EnhancedCircuitBreaker :=
  let cb1 := { cb with
    success_count := cb.success_count + 1
    last_success_time := now
    failure_count := 0 }
  if cb1.state = "half-open" then
    { cb1 with state := "closed", adaptive_threshold := max 3 (cb1.adaptive_threshold - 1) }
  else cb1

/-- Embedding of `EnhancedCircuitBreaker.record_failure` (lines 118-124). -/
def EnhancedCircuitBreaker.record_failure (cb : EnhancedCircuitBreaker) (now : ℚ) :
    EnhancedCircuitBreaker :=
  let cb1 := { cb with
    failure_count := cb.failure_count + 1
    last_failure_time := now }
  if cb1.adaptive_threshold ≤ cb1.failure_count then
    { cb1 with state := "open", adaptive_threshold := min 10 (cb1.adaptive_threshold + 1) }
  else cb1

/-- Embedding of `EnhancedCircuitBreaker.can_attempt` (lines 126-136).  The
Python method both mutates the breaker (the `open` → `half-open` transition)
and returns a boolean, so the embedding returns the new breaker paired with
the returned boolean. -/
def EnhancedCircuitBreaker.can_attempt (cb : EnhancedCircuitBreaker) (now : ℚ) :
    EnhancedCircuitBreaker × Bool :=
  if cb.state = "closed" then (cb, true)
  else if cb.state = "open" then
    if cb.recovery_timeout < now - cb.last_failure_time then
      ({ cb with state := "half-open" }, true)
    else (cb, false)
  else if cb.state = "half-open" then (cb, true)
  else (cb, false)

/-- Embedding of the `OptimizedMLXInstance` dataclass
(`optimized_load_balancer.py`, lines 30-45).  `active_requests` is kept as an
integer (Python ints may go negative) so that its non-negativity is a real
statement.  The two deques keep their bounded-append discipline through
`dequeAppend`. -/
structure OptimizedMLXInstance where
  id : Nat
  host : String
  port : Nat
  healthy : Bool
  active_requests : Int
  total_requests : Nat
  successful_requests : Nat
  failed_requests : Nat
  response_times : List ℚ
  tokens_processed : ℚ
  last_used : ℚ
  throughput_history : List ℚ
deriving DecidableEq

/-- Dataclass defaults of `OptimizedMLXInstance`; `t0` stands for the
`time.time()` default of `last_used`. -/
def initInstance (id : Nat) (host : String) (port : Nat) (t0 : ℚ) : OptimizedMLXInstance :=
  { id := id
    host := host
    port := port
    healthy := true
    active_requests := 0
    total_requests := 0
    successful_requests := 0
    failed_requests := 0
    response_times := []
    tokens_processed := 0
    last_used := t0
    throughput_history := [] }

/-- Property `OptimizedMLXInstance.average_response_time` (lines 47-49). -/
def OptimizedMLXInstance.average_response_time (inst : OptimizedMLXInstance) : ℚ :=
  listMean inst.response_times

/-- Property `OptimizedMLXInstance.current_throughput` (lines 51-56). -/
def OptimizedMLXInstance.current_throughput (inst : OptimizedMLXInstance) : ℚ :=
  listMean inst.throughput_history

/-- Property `OptimizedMLXInstance.failure_rate` (lines 58-62). -/
def OptimizedMLXInstance.failure_rate (inst : OptimizedMLXInstance) : ℚ :=
  if inst.total_requests = 0 then 0
  else (inst.failed_requests : ℚ) / (inst.total_requests : ℚ)

/-- Property `OptimizedMLXInstance.success_rate` (lines 64-68). -/
def OptimizedMLXInstance.success_rate (inst : OptimizedMLXInstance) : ℚ :=
  if inst.total_requests = 0 then 1
  else (inst.successful_requests : ℚ) / (inst.total_requests : ℚ)

/-- Property `OptimizedMLXInstance.performance_score` (lines 70-93). -/
def OptimizedMLXInstance.performance_score (inst : OptimizedMLXInstance) : ℚ :=
  if inst.healthy = false then 0
  else
    let throughput_score := min 100 (inst.current_throughput / 1485 * 100)
    let response_score := max 0 (100 - inst.average_response_time / 100)
    let success_score := inst.success_rate * 100
    let load_score := max 0 (100 - (inst.active_requests : ℚ) * 10)
    throughput_score * (4/10) + response_score * (25/100)
      + success_score * (2/10) + load_score * (15/100)

/-- Behaviour of the network for one HTTP POST made by the dispatcher: either
a decoded JSON response arrived (with its HTTP status and the optional
`usage.total_tokens` field), or an exception was raised somewhere in the
`try` block (connect error, timeout, JSON decode error) carrying `str(e)`. -/
inductive ForwardOutcome where
  | response (status : Nat) (usage_total_tokens : Option ℚ)
  | exn (msg : String)
deriving DecidableEq

/-- True exactly for the exception outcome. -/
def ForwardOutcome.isExn : ForwardOutcome → Bool
  | .response _ _ => false
  | .exn _ => true

/-- Embedding of `OptimizedMLXLoadBalancer._forward_to_instance`
(lines 442-509).  The instance and its circuit breaker are the mutated
state; `estimated_tokens` is the caller-computed estimate, `response_time`
the measured latency in milliseconds, and `now` the wall clock at completion
(used by `record_success` / `record_failure` and `last_used`).  The returned
`Except String Nat` is `.ok status` when the method returns normally and
`.error msg` when the exception propagates (`raise` in the `except` block).
On the exception path the source increments `failed_requests` but not
`total_requests`; the `finally` block decrements `active_requests` and sets
`last_used` on every exit path. -/
def forwardToInstance (inst : OptimizedMLXInstance) (cb : EnhancedCircuitBreaker)
    (estimated_tokens : ℚ) (outcome : ForwardOutcome) (response_time now : ℚ) :
    OptimizedMLXInstance × EnhancedCircuitBreaker × Except String Nat :=
  let instA := { inst with active_requests := inst.active_requests + 1 }
  match outcome with
  | .response status usage =>
    let total_tokens_count := usage.getD estimated_tokens
    let instB := { instA with
      response_times := dequeAppend 100 instA.response_times response_time
      total_requests := instA.total_requests + 1
      tokens_processed := instA.tokens_processed + total_tokens_count }
    let current_throughput :=
      if 0 < response_time then total_tokens_count / (response_time / 1000) else 0
    let instC := { instB with
      throughput_history := dequeAppend 10 instB.throughput_history current_throughput }
    let instD :=
      if status = 200 then { instC with successful_requests := instC.successful_requests + 1 }
      else { instC with failed_requests := instC.failed_requests + 1 }
    let cb1 := if status = 200 then cb.record_success now else cb.record_failure now
    let instE := { instD with active_requests := instD.active_requests - 1, last_used := now }
    (instE, cb1, .ok status)
  | .exn msg =>
    let instB := { instA with failed_requests := instA.failed_requests + 1 }
    let cb1 := cb.record_failure now
    let instC := { instB with active_requests := instB.active_requests - 1, last_used := now }
    (instC, cb1, .error msg)

/-- Strict lexicographic comparison of two rational pairs, matching Python
tuple comparison as used by `min(..., key := lambda x: (a, b))`. -/
def qqLt (a b : ℚ × ℚ) : Bool :=
  decide (a.1 < b.1) || (decide (a.1 = b.1) && decide (a.2 < b.2))

/-- Python `min(xs, key)` / `max(xs, key)` skeleton: fold over the list,
replacing the current best only when `better y best` holds, so the first
optimum of the list is kept, exactly as Python's `min`/`max` do.  Returns
`none` on the empty list. -/
def pickBy {α : Type} (better : α → α → Bool) : List α → Option α
  | [] => none
  | x :: xs => some (xs.foldl (fun best y => if better y best then y else best) x)

/-- Tie-break key of the `round_robin` branch of `select_instance`
(line 414-418): smallest `(last_used, -performance_score)`. -/
def rrBetter (y best : OptimizedMLXInstance) : Bool :=
  qqLt (y.last_used, -y.performance_score) (best.last_used, -best.performance_score)

/-- Tie-break key of the `least_connections` branch (lines 420-425):
smallest `(active_requests, -performance_score)`. -/
def lcBetter (y best : OptimizedMLXInstance) : Bool :=
  qqLt ((y.active_requests : ℚ), -y.performance_score)
    ((best.active_requests : ℚ), -best.performance_score)

/-- Tie-break key of the `response_time` branch (lines 427-432):
smallest `(average_response_time, -current_throughput)`. -/
def rtBetter (y best : OptimizedMLXInstance) : Bool :=
  qqLt (y.average_response_time, -y.current_throughput)
    (best.average_response_time, -best.current_throughput)

/-- Comparison of the `performance` branch and of the default branch
(lines 434-440): largest `performance_score`. -/
def perfBetter (y best : OptimizedMLXInstance) : Bool :=
  decide (best.performance_score < y.performance_score)

/-- State of `OptimizedMLXLoadBalancer` relevant to dispatch: the instance
list together with each instance's circuit breaker
(`self.instances` and `self.circuit_breakers`, paired by position as
`_initialize_instances` creates them, lines 201-222). -/
structure LBState where
  pairs : List (OptimizedMLXInstance × EnhancedCircuitBreaker)
deriving DecidableEq

/-- One step of the eligibility list comprehension of `select_instance`
(lines 405-409): `inst.healthy and self.circuit_breakers[inst.id].can_attempt()`.
`can_attempt` mutates the breaker, so the step returns the updated pair
together with the eligibility boolean. -/
def eligibleStep (now : ℚ) (p : OptimizedMLXInstance × EnhancedCircuitBreaker) :
    (OptimizedMLXInstance × EnhancedCircuitBreaker) × Bool :=
  ((p.1, (p.2.can_attempt now).1), p.1.healthy && (p.2.can_attempt now).2)

/-- All pairs after the eligibility pass of `select_instance`. -/
def steppedPairs (s : LBState) (now : ℚ) :
    List ((OptimizedMLXInstance × EnhancedCircuitBreaker) × Bool) :=
  s.pairs.map (eligibleStep now)

/-- The `healthy_instances` list of `select_instance` (lines 405-409). -/
def healthyInstances (s : LBState) (now : ℚ) : List OptimizedMLXInstance :=
  ((steppedPairs s now).filter (fun q => q.2)).map (fun q => q.1.1)

/-- Embedding of `OptimizedMLXLoadBalancer.select_instance` (lines 401-440).
Returns the balancer state with the breakers updated by the `can_attempt`
calls of the eligibility pass, and the selected instance (`none` models the
Python `return None`).  An unrecognized algorithm string falls through to
the final `else`, which is the same performance-based selection as the
`"performance"` branch. -/
def selectInstance (s : LBState) (algorithm : String) (now : ℚ) :
    LBState × Option OptimizedMLXInstance :=
  let s1 : LBState := ⟨(steppedPairs s now).map (fun q => q.1)⟩
  let healthy := healthyInstances s now
  if healthy.isEmpty then (s1, none)
  else if algorithm = "round_robin" then (s1, pickBy rrBetter healthy)
  else if algorithm = "least_connections" then (s1, pickBy lcBetter healthy)
  else if algorithm = "response_time" then (s1, pickBy rtBetter healthy)
  else if algorithm = "performance" then (s1, pickBy perfBetter healthy)
  else (s1, pickBy perfBetter healthy)

/-- Python `str.split()` with no arguments: split on whitespace runs and
drop empty pieces. -/
def pythonSplit (s : String) : List String :=
  (s.split Char.isWhitespace).filter (fun w => w ≠ "")

/-- The token estimate of `forward_request` (lines 517-519):
`len(request_data.get("prompt", "").split()) * 1.3`. -/
def estimatedTokens (prompt : String) : ℚ :=
  ((pythonSplit prompt).length : ℚ) * (13/10)

/-- Network behaviour of one HTTP attempt: the outcome of the POST, the
measured latency in milliseconds, and the wall clock at completion. -/
structure AttemptResult where
  outcome : ForwardOutcome
  response_time : ℚ
  now : ℚ
deriving DecidableEq

/-- True when a `_forward_to_instance` run returned normally with HTTP 200. -/
def isOk200 : Except String Nat → Bool
  | .ok status => status == 200
  | .error _ => false

/-- True when the attempt produced an HTTP 200 response (no exception). -/
def AttemptResult.isSuccess (a : AttemptResult) : Bool :=
  match a.outcome with
  | .response status _ => status == 200
  | .exn _ => false

/-- Recursion of `OptimizedMLXLoadBalancer._retry_request` (lines 547-598):
`for attempt in range(max_retries)`, sleeping `0.5 * (2 ** attempt)` before
each attempt, calling `_forward_to_instance`, returning on a 200 status and
otherwise (non-200 status or exception) continuing; the loop is entered with
`attempt = 0` and `remaining = max_retries`.  The result carries the mutated
instance and breaker, the list of back-off delays actually slept (in
seconds), and whether some attempt returned 200. -/
def retryGo (inst : OptimizedMLXInstance) (cb : EnhancedCircuitBreaker) (est : ℚ)
    (env : Nat → AttemptResult) : Nat → Nat →
    OptimizedMLXInstance × EnhancedCircuitBreaker × List ℚ × Bool
  | _, 0 => (inst, cb, [], false)
  | attempt, remaining + 1 =>
    let d : ℚ := (1/2) * 2 ^ attempt
    let a := env attempt
    let r := forwardToInstance inst cb est a.outcome a.response_time a.now
    if isOk200 r.2.2 then (r.1, r.2.1, [d], true)
    else
      let rest := retryGo r.1 r.2.1 est env (attempt + 1) remaining
      (rest.1, rest.2.1, d :: rest.2.2.1, rest.2.2.2)

/-- Embedding of `_retry_request` with its loop started at attempt 0.
`env k` is the network behaviour of the k-th retry attempt. -/
def retryRequest (inst : OptimizedMLXInstance) (cb : EnhancedCircuitBreaker) (est : ℚ)
    (env : Nat → AttemptResult) (max_retries : Nat) :
    OptimizedMLXInstance × EnhancedCircuitBreaker × List ℚ × Bool :=
  retryGo inst cb est env 0 max_retries

/-- Result of `forward_request` as seen by its caller: a normal return of
the 200 response, or a propagating exception carrying `str(e)`. -/
inductive ForwardResult where
  | ok
  | raised (msg : String)
deriving DecidableEq

/-- Embedding of `OptimizedMLXLoadBalancer.forward_request` (lines 511-545):
compute the token estimate from the prompt, call `_forward_to_instance`
once (`first` is the network behaviour of that call); on status 200 return
the response; on any other status run `_retry_request` on the same instance
and the same URL with `max_retries` attempts; an exception from the first
attempt propagates unchanged, and exhausted retries raise
`"All retry attempts failed for instance {id}"`. -/
def forwardRequest (inst : OptimizedMLXInstance) (cb : EnhancedCircuitBreaker)
    (prompt : String) (first : AttemptResult) (env : Nat → AttemptResult)
    (max_retries : Nat) :
    OptimizedMLXInstance × EnhancedCircuitBreaker × ForwardResult :=
  let est := estimatedTokens prompt
  let r := forwardToInstance inst cb est first.outcome first.response_time first.now
  match r.2.2 with
  | .error msg => (r.1, r.2.1, .raised msg)
  | .ok status =>
    if status = 200 then (r.1, r.2.1, .ok)
    else
      let rr := retryRequest r.1 r.2.1 est env max_retries
      if rr.2.2.2 then (rr.1, rr.2.1, .ok)
      else (rr.1, rr.2.1,
        .raised ("All retry attempts failed for instance " ++ toString rr.1.id))

/-- HTTP response of the dispatcher as seen by the client: the status code
and, when the body is the error object built by the handler, the string
under its `error` key. -/
structure WebResponse where
  status : Nat
  errorMsg : Option String
deriving DecidableEq

/-- The `self.circuit_breakers[instance.id]` dictionary access, located by
instance id among the pairs (the id is always present in an initialized
balancer; a missing id would be a Python `KeyError`, modelled by a default
breaker). -/
def lookupBreaker (s : LBState) (id : Nat) : EnhancedCircuitBreaker :=
  match s.pairs.find? (fun p => p.1.id == id) with
  | some p => p.2
  | none => EnhancedCircuitBreaker.init 5 60

/-- Write back the mutated instance and breaker at the selected id. -/
def updatePair (s : LBState) (id : Nat) (inst : OptimizedMLXInstance)
    (cb : EnhancedCircuitBreaker) : LBState :=
  ⟨s.pairs.map (fun p => if p.1.id == id then (inst, cb) else p)⟩

/-- Embedding of `OptimizedMLXLoadBalancer.handle_completion_request`
(lines 600-631): select with the `"performance"` algorithm; when no
instance is eligible reply immediately with status 503 and the body
`error := "No healthy MLX instances available"` (the handler never blocks
or queues — it is a total function of the selection result); otherwise
forward with retries, returning the worker response on success and, when
the forwarding raised `e`, status 500 with `"Internal server error: " ++
str(e)`. -/
def handleCompletionRequest (s : LBState) (now : ℚ) (prompt : String)
    (first : AttemptResult) (env : Nat → AttemptResult) (max_retries : Nat) :
    LBState × WebResponse :=
  let sel := selectInstance s "performance" now
  match sel.2 with
  | none => (sel.1, ⟨503, some "No healthy MLX instances available"⟩)
  | some inst =>
    let cb := lookupBreaker sel.1 inst.id
    let fr := forwardRequest inst cb prompt first env max_retries
    let s2 := updatePair sel.1 inst.id fr.1 fr.2.1
    match fr.2.2 with
    | .ok => (s2, ⟨200, none⟩)
    | .raised msg => (s2, ⟨500, some ("Internal server error: " ++ msg)⟩)

/-- One proxied request as seen by `_forward_to_instance`: the token
estimate passed by the caller, the outcome of the HTTP POST, the measured
latency and the completion wall clock. -/
structure ProxyEvent where
  est : ℚ
  outcome : ForwardOutcome
  response_time : ℚ
  now : ℚ
deriving DecidableEq

/-- Run a sequence of proxied requests against one instance and its
breaker, each through `forwardToInstance`. -/
def runEvents : OptimizedMLXInstance → EnhancedCircuitBreaker → List ProxyEvent →
    OptimizedMLXInstance × EnhancedCircuitBreaker
  | inst, cb, [] => (inst, cb)
  | inst, cb, e :: es =>
    let r := forwardToInstance inst cb e.est e.outcome e.response_time e.now
    runEvents r.1 r.2.1 es

/-- Number of exception-path exits in a sequence of proxied requests. -/
def exnCount (es : List ProxyEvent) : Nat :=
  (es.filter (fun e => e.outcome.isExn)).length

/-- Embedding of the `OptimizedServerInstance` dataclass of
`enhanced_server_manager.py` (lines 34-48), restricted to the fields the
supervisor's lifecycle logic reads or writes.  `status` is the Python
string among `"stopped"`, `"starting"`, `"running"`, `"failed"`;
`hasProcess` models whether `instance.process` is set (truthy). -/
structure OptimizedServerInstance where
  id : Nat
  port : Nat
  pid : Option Nat
  hasProcess : Bool
  status : String
  start_time : Option ℚ
  last_heartbeat : Option ℚ
  restart_count : Nat
deriving DecidableEq

/-- Environment outcome of one `_start_instance` run: the `Popen` call (or
the script-existence check) raised, or the instance became healthy within
the startup deadline, or the deadline elapsed first. -/
inductive StartOutcome where
  | spawnError
  | healthy
  | startupTimeout
deriving DecidableEq

/-- Embedding of `EnhancedServerManager._start_instance` (lines 161-235).
The guard at the top is only `if instance.status == "running"`: then warn
and return, spawning nothing (second component `false`).  Otherwise set
`status := "starting"`, `start_time := now`, spawn the worker (second
component `true` when a process was created), and either reach `"running"`
on a successful health poll or `"failed"` on spawn error or startup
deadline; on the deadline path the process is terminated or killed but the
`process` field is not cleared. -/
def startInstance (inst : OptimizedServerInstance) (now : ℚ) (pid : Nat)
    (outcome : StartOutcome) : OptimizedServerInstance × Bool :=
  if inst.status = "running" then (inst, false)
  else
    let inst1 := { inst with status := "starting", start_time := some now }
    match outcome with
    | .spawnError => ({ inst1 with status := "failed" }, false)
    | .healthy =>
      ({ { inst1 with hasProcess := true, pid := some pid } with
          status := "running", last_heartbeat := some now }, true)
    | .startupTimeout =>
      ({ inst1 with hasProcess := true, pid := some pid, status := "failed" }, true)

/-- Embedding of `EnhancedServerManager._stop_instance` (lines 326-353):
when a process handle is present, terminate or kill it, clear `process` and
`pid`, and set `status := "stopped"`; with no process handle nothing
changes. -/
def stopInstance (inst : OptimizedServerInstance) : OptimizedServerInstance :=
  if inst.hasProcess then
    { inst with hasProcess := false, pid := none, status := "stopped" }
  else inst

/-- The restart-cooldown test of `_restart_instance` (lines 303-308):
`instance.last_heartbeat and (now - instance.last_heartbeat) < restart_cooldown`;
a heartbeat of `0.0` is falsy in Python. -/
def inCooldown (lh : Option ℚ) (cooldown now : ℚ) : Bool :=
  match lh with
  | some hb => decide (hb ≠ 0) && decide (now - hb < cooldown)
  | none => false

/-- Embedding of `EnhancedServerManager._restart_instance` (lines 293-324).
When the restart budget is spent (`restart_count ≥ max_restart_attempts`)
set `status := "failed"` and return without incrementing or spawning; when
in cooldown return unchanged; otherwise increment `restart_count`, stop,
and start again (the spawn and health outcome come from the environment).
The boolean reports whether a process was spawned. -/
def restartInstance (inst : OptimizedServerInstance) (maxAttempts : Nat)
    (cooldown now : ℚ) (pid : Nat) (outcome : StartOutcome) :
    OptimizedServerInstance × Bool :=
  if maxAttempts ≤ inst.restart_count then
    ({ inst with status := "failed" }, false)
  else if inCooldown inst.last_heartbeat cooldown now then (inst, false)
  else
    let inst1 := { inst with restart_count := inst.restart_count + 1 }
    let inst2 := stopInstance inst1
    startInstance inst2 now pid outcome

/-- A supervisor instance record with the dataclass defaults of
`OptimizedServerInstance` except for an explicit status and restart count
(used to state concrete scenarios). -/
def mkServerInstance (status : String) (rc : Nat) : OptimizedServerInstance :=
  { id := 0
    port := 8107
    pid := none
    hasProcess := false
    status := status
    start_time := none
    last_heartbeat := none
    restart_count := rc }


/-- An element selected by the Python `min`/`max` skeleton belongs to the list. -/
theorem pickBy_mem {α : Type} (better : α → α → Bool) (xs : List α) (y : α)
    (h : pickBy better xs = some y) : y ∈ xs := by
  match xs with
  | [] => simp [pickBy] at h
  | x :: rest =>
    simp only [pickBy, Option.some.injEq] at h
    subst h
    suffices hs : ∀ (l : List α) (acc : α),
        l.foldl (fun best z => if better z best then z else best) acc ∈ acc :: l by
      simpa using hs rest x
    intro l
    induction l with
    | nil => intro acc; simp
    | cons z zs ih =>
      intro acc
      have := ih (if better z acc then z else acc)
      rcases List.mem_cons.mp this with h1 | h1
      · rw [List.foldl_cons, h1]
        by_cases hb : better z acc <;> simp [hb]
      · simp [List.foldl_cons]
        right; right; exact h1

/-- An element selected by the Python `max(xs, key)` skeleton has the largest key. -/
theorem pickBy_max_key (key : OptimizedMLXInstance → ℚ) (xs : List OptimizedMLXInstance)
    (y : OptimizedMLXInstance)
    (h : pickBy (fun a b => decide (key b < key a)) xs = some y) :
    ∀ x ∈ xs, key x ≤ key y := by
  match xs with
  | [] => simp [pickBy] at h
  | x :: rest =>
    simp only [pickBy, Option.some.injEq] at h
    subst h
    suffices hs : ∀ (l : List OptimizedMLXInstance) (acc : OptimizedMLXInstance),
        key acc ≤ key (l.foldl
          (fun best z => if decide (key best < key z) = true then z else best) acc) ∧
        ∀ z ∈ l, key z ≤ key (l.foldl
          (fun best z => if decide (key best < key z) = true then z else best) acc) by
      intro x2 hx2
      rcases List.mem_cons.mp hx2 with h1 | h1
      · subst h1
        simpa using (hs rest x2).1
      · simpa using (hs rest x).2 x2 h1
    intro l
    induction l with
    | nil => intro acc; simp
    | cons z zs ih =>
      intro acc
      have hiz := ih (if decide (key acc < key z) = true then z else acc)
      have hza : key acc ≤ key (if decide (key acc < key z) = true then z else acc) := by
        split
        · rename_i hlt; simp at hlt; exact le_of_lt hlt
        · exact le_refl _
      have hzz : key z ≤ key (if decide (key acc < key z) = true then z else acc) := by
        split
        · exact le_refl _
        · rename_i hlt; simp at hlt; exact hlt
      refine ⟨?_, ?_⟩
      · rw [List.foldl_cons]
        exact le_trans hza hiz.1
      · intro w hw
        rw [List.foldl_cons]
        rcases List.mem_cons.mp hw with h1 | h1
        · subst h1
          exact le_trans hzz hiz.1
        · exact hiz.2 w h1

/-- Dropping fewer elements than the length preserves the last element. -/
theorem getLast?_drop_lt (l : List ℚ) :
    ∀ k, k < l.length → (l.drop k).getLast? = l.getLast? := by
  induction l with
  | nil => intro k h; simp at h
  | cons a as ih =>
    intro k h
    cases k with
    | zero => rfl
    | succ n =>
      have hn : n < as.length := by simpa using h
      rw [List.drop_succ_cons, ih n hn]
      cases as with
      | nil => simp at hn
      | cons b bs => rw [List.getLast?_cons_cons]

/-- The element just appended to a bounded deque is its last element. -/
theorem dequeAppend_getLast (n : Nat) (hn : 0 < n) (xs : List ℚ) (x : ℚ) :
    (dequeAppend n xs x).getLast? = some x := by
  unfold dequeAppend
  dsimp only
  split
  · rename_i h
    rw [getLast?_drop_lt _ _ (by simp at h ⊢; omega), List.getLast?_concat]
  · exact List.getLast?_concat xs

/-- Forwarding never changes the instance id. -/
theorem forwardToInstance_id (inst : OptimizedMLXInstance) (cb : EnhancedCircuitBreaker)
    (est : ℚ) (o : ForwardOutcome) (rt now : ℚ) :
    (forwardToInstance inst cb est o rt now).1.id = inst.id := by
  cases o with
  | response st u => simp only [forwardToInstance]; split <;> rfl
  | exn m => rfl

/-- A forwarded attempt returns `.ok 200` exactly when the network outcome was a 200 response. -/
theorem isOk200_forward (a : AttemptResult) (inst : OptimizedMLXInstance)
    (cb : EnhancedCircuitBreaker) (est : ℚ) :
    isOk200 (forwardToInstance inst cb est a.outcome a.response_time a.now).2.2
      = a.isSuccess := by
  rcases a with ⟨o, rt, t⟩
  cases o <;> simp [forwardToInstance, isOk200, AttemptResult.isSuccess]

/-- On a response outcome the forwarding helper returns the HTTP status. -/
theorem forwardToInstance_response (inst : OptimizedMLXInstance)
    (cb : EnhancedCircuitBreaker) (est : ℚ) (st : Nat) (u : Option ℚ) (rt now : ℚ) :
    (forwardToInstance inst cb est (.response st u) rt now).2.2 = Except.ok st := rfl

/-- When every retry attempt fails, the retry loop sleeps the full
exponential back-off schedule, reports failure, and preserves the instance
id. -/
theorem retryGo_allfail (est : ℚ) (env : Nat → AttemptResult) :
    ∀ (remaining attempt : Nat) (inst : OptimizedMLXInstance)
      (cb : EnhancedCircuitBreaker),
    (∀ i, i < remaining → (env (attempt + i)).isSuccess = false) →
    (retryGo inst cb est env attempt remaining).2.2.1
        = (List.range remaining).map (fun j => (1/2 : ℚ) * 2 ^ (attempt + j)) ∧
      (retryGo inst cb est env attempt remaining).2.2.2 = false ∧
      (retryGo inst cb est env attempt remaining).1.id = inst.id := by
  intro remaining
  induction remaining with
  | zero => intro attempt inst cb _; simp [retryGo]
  | succ n ih =>
    intro attempt inst cb h
    have h0 : (env attempt).isSuccess = false := by
      simpa using h 0 (Nat.succ_pos n)
    have hok : isOk200 (forwardToInstance inst cb est (env attempt).outcome
        (env attempt).response_time (env attempt).now).2.2 = false := by
      rw [isOk200_forward]; exact h0
    have ihs := ih (attempt + 1)
      (forwardToInstance inst cb est (env attempt).outcome
        (env attempt).response_time (env attempt).now).1
      (forwardToInstance inst cb est (env attempt).outcome
        (env attempt).response_time (env attempt).now).2.1
      (fun i hi => by
        have := h (i + 1) (Nat.succ_lt_succ hi)
        simpa [Nat.add_assoc, Nat.add_comm 1 i] using this)
    refine ⟨?_, ?_, ?_⟩
    · simp only [retryGo, hok, if_false, Bool.false_eq_true]
      rw [ihs.1, List.range_succ_eq_map, List.map_cons, List.map_map]
      refine congrArg₂ List.cons (by norm_num) ?_
      apply List.map_congr_left
      intro j _
      have h2 : attempt + 1 + j = attempt + (j + 1) := by omega
      simp [Function.comp, h2, Nat.succ_eq_add_one]
    · simp only [retryGo, hok, if_false, Bool.false_eq_true]
      exact ihs.2.1
    · simp only [retryGo, hok, if_false, Bool.false_eq_true]
      rw [ihs.2.2]
      exact forwardToInstance_id _ _ _ _ _ _

/-- The retry loop never sleeps more than `remaining` delays. -/
theorem retryGo_length (est : ℚ) (env : Nat → AttemptResult) :
    ∀ (remaining attempt : Nat) (inst : OptimizedMLXInstance)
      (cb : EnhancedCircuitBreaker),
    (retryGo inst cb est env attempt remaining).2.2.1.length ≤ remaining := by
  intro remaining
  induction remaining with
  | zero => intro attempt inst cb; simp [retryGo]
  | succ n ih =>
    intro attempt inst cb
    simp only [retryGo]
    split
    · simp
    · simpa using ih (attempt + 1) _ _

/-- A non-200 first attempt followed by all-failing retries makes
`forward_request` raise the retry-exhaustion message for the selected
instance. -/
theorem forwardRequest_allfail (inst : OptimizedMLXInstance)
    (cb : EnhancedCircuitBreaker) (prompt : String) (first : AttemptResult)
    (env : Nat → AttemptResult) (max_retries : Nat) (st : Nat) (u : Option ℚ)
    (hfirst : first.outcome = .response st u) (hst : st ≠ 200)
    (hfail : ∀ i, i < max_retries → (env i).isSuccess = false) :
    (forwardRequest inst cb prompt first env max_retries).2.2
      = .raised ("All retry attempts failed for instance " ++ toString inst.id) := by
  have hall := retryGo_allfail (estimatedTokens prompt) env max_retries 0
    (forwardToInstance inst cb (estimatedTokens prompt) first.outcome
      first.response_time first.now).1
    (forwardToInstance inst cb (estimatedTokens prompt) first.outcome
      first.response_time first.now).2.1
    (fun i hi => by simpa using hfail i hi)
  unfold forwardRequest retryRequest
  simp only [hfirst, forwardToInstance_response, hst, if_false]
  rw [hfirst] at hall
  simp only [hall.2.1, Bool.false_eq_true, if_false]
  rw [hall.2.2, forwardToInstance_id]

/-- Counter bookkeeping of a single `_forward_to_instance` call: the
in-flight count is restored, exactly one of the success/failure counters is
incremented, and the request counter is incremented exactly on the
response (non-exception) paths. -/
theorem forward_step_counters (inst : OptimizedMLXInstance) (cb : EnhancedCircuitBreaker)
    (est : ℚ) (o : ForwardOutcome) (rt now : ℚ) :
    (forwardToInstance inst cb est o rt now).1.active_requests = inst.active_requests ∧
    (forwardToInstance inst cb est o rt now).1.successful_requests
        + (forwardToInstance inst cb est o rt now).1.failed_requests
      = inst.successful_requests + inst.failed_requests + 1 ∧
    (forwardToInstance inst cb est o rt now).1.total_requests
        + (if o.isExn then 1 else 0)
      = inst.total_requests + 1 ∧
    (forwardToInstance inst cb est o rt now).1.successful_requests
      ≤ inst.successful_requests + (if o.isExn then 0 else 1) ∧
    inst.successful_requests ≤ (forwardToInstance inst cb est o rt now).1.successful_requests := by
  cases o with
  | response st u =>
    simp only [forwardToInstance, ForwardOutcome.isExn]
    split <;> simp <;> omega
  | exn m =>
    simp [forwardToInstance, ForwardOutcome.isExn]
    omega

/-- Head unfolding of the exception-exit counter. -/
theorem exnCount_cons (e : ProxyEvent) (es : List ProxyEvent) :
    exnCount (e :: es) = (if e.outcome.isExn then 1 else 0) + exnCount es := by
  by_cases h : e.outcome.isExn <;>
    simp [exnCount, List.filter_cons, h, Nat.add_comm]

/-- Counter bookkeeping over a sequence of proxied requests: the in-flight
count is restored, success plus failure counters grow by exactly the number
of requests, the request counter grows by the number of non-exception
requests, and `successes ≤ requests` is preserved. -/
theorem runEvents_inv (events : List ProxyEvent) :
    ∀ (inst : OptimizedMLXInstance) (cb : EnhancedCircuitBreaker),
    (runEvents inst cb events).1.active_requests = inst.active_requests ∧
    (runEvents inst cb events).1.successful_requests
        + (runEvents inst cb events).1.failed_requests
      = inst.successful_requests + inst.failed_requests + events.length ∧
    (runEvents inst cb events).1.total_requests + exnCount events
      = inst.total_requests + events.length ∧
    (inst.successful_requests ≤ inst.total_requests →
      (runEvents inst cb events).1.successful_requests
        ≤ (runEvents inst cb events).1.total_requests) := by
  induction events with
  | nil => intro inst cb; simp [runEvents, exnCount]
  | cons e es ih =>
    intro inst cb
    have hstep := forward_step_counters inst cb e.est e.outcome e.response_time e.now
    have ihs := ih (forwardToInstance inst cb e.est e.outcome e.response_time e.now).1
      (forwardToInstance inst cb e.est e.outcome e.response_time e.now).2.1
    simp only [runEvents]
    refine ⟨?_, ?_, ?_, ?_⟩
    · rw [ihs.1, hstep.1]
    · rw [ihs.2.1, hstep.2.1]
      simp [List.length_cons]
      omega
    · rw [exnCount_cons]
      have h1 := ihs.2.2.1
      have h2 := hstep.2.2.1
      simp only [List.length_cons]
      omega
    · intro hle
      apply ihs.2.2.2
      have h2 := hstep.2.2.1
      have h3 := hstep.2.2.2.1
      by_cases hx : e.outcome.isExn <;> simp [hx] at h2 h3 <;> omega

/-- Starting never changes the restart count. -/
theorem startInstance_restart_count (j : OptimizedServerInstance) (now : ℚ) (pid : Nat)
    (o : StartOutcome) : (startInstance j now pid o).1.restart_count = j.restart_count := by
  unfold startInstance
  split
  · rfl
  · cases o <;> rfl

/-- Stopping never changes the restart count. -/
theorem stopInstance_restart_count (j : OptimizedServerInstance) :
    (stopInstance j).restart_count = j.restart_count := by
  unfold stopInstance
  split <;> rfl

/-- Claim C1 (amended).  For every sequence of proxied requests run against a
freshly initialized instance: the in-flight count `active_requests` returns
to 0 after every request (each `_forward_to_instance` call restores it on
every exit path, stated as the final conjunct), `successful_requests` never
exceeds `total_requests`, and
`successful_requests + failed_requests ≤ total_requests + (number of
exception-path exits)`.  The original bound without the exception-exit term
fails on the code: the exception path of `_forward_to_instance` increments
`failed_requests` but not `total_requests`. -/
theorem C1_counters_amended (id : Nat) (host : String) (port : Nat) (t0 : ℚ)
    (ft : Nat) (rt : ℚ) (events : List ProxyEvent) :
    (runEvents (initInstance id host port t0)
        (EnhancedCircuitBreaker.init ft rt) events).1.active_requests = 0 ∧
    (runEvents (initInstance id host port t0)
        (EnhancedCircuitBreaker.init ft rt) events).1.successful_requests
      ≤ (runEvents (initInstance id host port t0)
        (EnhancedCircuitBreaker.init ft rt) events).1.total_requests ∧
    (runEvents (initInstance id host port t0)
        (EnhancedCircuitBreaker.init ft rt) events).1.successful_requests
        + (runEvents (initInstance id host port t0)
          (EnhancedCircuitBreaker.init ft rt) events).1.failed_requests
      ≤ (runEvents (initInstance id host port t0)
          (EnhancedCircuitBreaker.init ft rt) events).1.total_requests
        + exnCount events ∧
    ∀ (inst : OptimizedMLXInstance) (cb : EnhancedCircuitBreaker) (est : ℚ)
      (o : ForwardOutcome) (rtm now : ℚ),
      (forwardToInstance inst cb est o rtm now).1.active_requests
        = inst.active_requests := by
  have h := runEvents_inv events (initInstance id host port t0)
    (EnhancedCircuitBreaker.init ft rt)
  refine ⟨?_, ?_, ?_, ?_⟩
  · rw [h.1]; rfl
  · exact h.2.2.2 (Nat.le_refl 0)
  · have h1 := h.2.1
    have h2 := h.2.2.1
    have hb : (initInstance id host port t0).successful_requests = 0 := rfl
    have hc : (initInstance id host port t0).failed_requests = 0 := rfl
    have hd : (initInstance id host port t0).total_requests = 0 := rfl
    omega
  · intro inst cb est o rtm now
    exact (forward_step_counters inst cb est o rtm now).1

/-- Counterexample to claim C1 as stated: after a single proxied request
that exits through the exception path (connect error), the fresh instance
has `successful_requests + failed_requests = 1 > 0 = total_requests`, so
`successes + failures ≤ requests` does not hold on the exception exit
path. -/
theorem C1_counterexample :
    ¬ ((runEvents (initInstance 0 "localhost" 8080 0) (EnhancedCircuitBreaker.init 5 60)
          [⟨0, .exn "Connection refused", 0, 1⟩]).1.successful_requests
        + (runEvents (initInstance 0 "localhost" 8080 0) (EnhancedCircuitBreaker.init 5 60)
          [⟨0, .exn "Connection refused", 0, 1⟩]).1.failed_requests
      ≤ (runEvents (initInstance 0 "localhost" 8080 0) (EnhancedCircuitBreaker.init 5 60)
          [⟨0, .exn "Connection refused", 0, 1⟩]).1.total_requests) := by
  decide

/-- Claim C2.  The circuit breaker threshold is adaptive: `record_success`
resets the consecutive-failure count to 0 and, exactly when the state is
`"half-open"`, moves the state to `"closed"` and decrements the adaptive
threshold with lower bound 3; `record_failure` increments the failure count
and sets the last-failure time, and exactly when the incremented count
reaches the adaptive threshold the state becomes `"open"` and the adaptive
threshold is incremented with upper bound 10. -/
theorem C2_adaptive_breaker (cb : EnhancedCircuitBreaker) (now : ℚ) :
    (cb.record_success now).failure_count = 0 ∧
    (cb.record_success now).state = (if cb.state = "half-open" then "closed" else cb.state) ∧
    (cb.record_success now).adaptive_threshold =
      (if cb.state = "half-open" then max 3 (cb.adaptive_threshold - 1)
       else cb.adaptive_threshold) ∧
    (cb.record_failure now).failure_count = cb.failure_count + 1 ∧
    (cb.record_failure now).last_failure_time = now ∧
    (cb.record_failure now).state =
      (if cb.adaptive_threshold ≤ cb.failure_count + 1 then "open" else cb.state) ∧
    (cb.record_failure now).adaptive_threshold =
      (if cb.adaptive_threshold ≤ cb.failure_count + 1 then min 10 (cb.adaptive_threshold + 1)
       else cb.adaptive_threshold) := by
  unfold EnhancedCircuitBreaker.record_success EnhancedCircuitBreaker.record_failure
  by_cases h : cb.state = "half-open" <;>
    by_cases h2 : cb.adaptive_threshold ≤ cb.failure_count + 1 <;>
      simp [h, h2]

/-- Claim C3.  `can_attempt` returns true in states `"closed"` and
`"half-open"`; in state `"open"` it returns false unless
`now - last_failure_time > recovery_timeout`, in which case it moves the
state to `"half-open"` and returns true.  A breaker with
`failure_threshold = 1` opens on its first recorded failure and, once the
recovery timeout has elapsed, admits a probe in `"half-open"` whose
recorded outcome moves the breaker to `"closed"` (success) or back to
`"open"` (failure). -/
theorem C3_can_attempt (cb : EnhancedCircuitBreaker) (now t1 t2 t3 rt : ℚ) :
    (cb.state = "closed" → cb.can_attempt now = (cb, true)) ∧
    (cb.state = "half-open" → cb.can_attempt now = (cb, true)) ∧
    (cb.state = "open" → ¬(cb.recovery_timeout < now - cb.last_failure_time) →
      cb.can_attempt now = (cb, false)) ∧
    (cb.state = "open" → cb.recovery_timeout < now - cb.last_failure_time →
      (cb.can_attempt now).2 = true ∧ (cb.can_attempt now).1.state = "half-open") ∧
    ((EnhancedCircuitBreaker.init 1 rt).record_failure t1).state = "open" ∧
    (rt < t2 - t1 →
      ((((EnhancedCircuitBreaker.init 1 rt).record_failure t1).can_attempt t2).2 = true ∧
        (((EnhancedCircuitBreaker.init 1 rt).record_failure t1).can_attempt t2).1.state
          = "half-open" ∧
        ((((EnhancedCircuitBreaker.init 1 rt).record_failure t1).can_attempt t2).1.record_success
          t3).state = "closed" ∧
        ((((EnhancedCircuitBreaker.init 1 rt).record_failure t1).can_attempt t2).1.record_failure
          t3).state = "open")) := by
  refine ⟨?_, ?_, ?_, ?_, ?_, ?_⟩
  · intro h; simp [EnhancedCircuitBreaker.can_attempt, h]
  · intro h; simp [EnhancedCircuitBreaker.can_attempt, h]
  · intro h h2; simp [EnhancedCircuitBreaker.can_attempt, h, h2]
  · intro h h2; simp [EnhancedCircuitBreaker.can_attempt, h, h2]
  · simp [EnhancedCircuitBreaker.init, EnhancedCircuitBreaker.record_failure]
  · intro h
    simp [EnhancedCircuitBreaker.init, EnhancedCircuitBreaker.record_failure,
      EnhancedCircuitBreaker.can_attempt, EnhancedCircuitBreaker.record_success, h]

/-- Witness for claim C3 at concrete inputs: an open breaker probed before
the timeout is refused, and the threshold-1 scenario runs end to end with
`recovery_timeout = 10`, failure at time 0 and probe at time 20. -/
theorem C3_can_attempt_witness :
    (({ EnhancedCircuitBreaker.init 5 10 with state := "open" }
        : EnhancedCircuitBreaker).can_attempt 5
      = ({ EnhancedCircuitBreaker.init 5 10 with state := "open" }, false)) ∧
    ((((EnhancedCircuitBreaker.init 1 10).record_failure 0).can_attempt 20).2 = true ∧
      (((EnhancedCircuitBreaker.init 1 10).record_failure 0).can_attempt 20).1.state
        = "half-open" ∧
      ((((EnhancedCircuitBreaker.init 1 10).record_failure 0).can_attempt 20).1.record_success
        21).state = "closed" ∧
      ((((EnhancedCircuitBreaker.init 1 10).record_failure 0).can_attempt 20).1.record_failure
        21).state = "open") := by
  constructor
  · exact (C3_can_attempt _ 5 0 20 21 10).2.2.1 rfl
      (by norm_num [EnhancedCircuitBreaker.init])
  · exact (C3_can_attempt (EnhancedCircuitBreaker.init 1 10) 5 0 20 21 10).2.2.2.2.2
      (by norm_num)

/-- Claim C4.  When no instance is both healthy and admitted by its circuit
breaker, `handle_completion_request` replies with HTTP status 503 and the
body error string `"No healthy MLX instances available"`; the handler is a
total function of the selection result, so it never blocks or queues
waiting for an instance. -/
theorem C4_starved_503 (s : LBState) (now : ℚ) (prompt : String)
    (first : AttemptResult) (env : Nat → AttemptResult) (max_retries : Nat)
    (h : ∀ p ∈ s.pairs, p.1.healthy = false ∨ (p.2.can_attempt now).2 = false) :
    (handleCompletionRequest s now prompt first env max_retries).2
      = ⟨503, some "No healthy MLX instances available"⟩ := by
  have hfil : ((steppedPairs s now).filter (fun q => q.2)) = [] := by
    rw [List.filter_eq_nil_iff]
    intro q hq
    rcases List.mem_map.mp hq with ⟨p, hp, hpe⟩
    subst hpe
    unfold eligibleStep
    rcases h p hp with h1 | h1 <;> simp [h1]
  have hh : healthyInstances s now = [] := by
    unfold healthyInstances
    rw [hfil]
    rfl
  have hsel : (selectInstance s "performance" now).2 = none := by
    unfold selectInstance
    simp [hh]
  unfold handleCompletionRequest
  simp only
  rw [hsel]

/-- Witness for claim C4: a balancer whose single instance is unhealthy
answers 503 with the no-healthy-instances body. -/
theorem C4_starved_503_witness :
    (handleCompletionRequest
        ⟨[({ initInstance 0 "localhost" 8080 0 with healthy := false },
            EnhancedCircuitBreaker.init 5 60)]⟩ 0 "hi"
        ⟨.exn "unreachable", 0, 0⟩ (fun _ => ⟨.exn "unreachable", 0, 0⟩) 2).2
      = ⟨503, some "No healthy MLX instances available"⟩ :=
  C4_starved_503 _ 0 "hi" _ _ 2 (by decide)

/-- Claim C5.  For every selection algorithm and every balancer state,
`select_instance` returns either `none` or an instance that is healthy and
whose circuit breaker answered true to `can_attempt` in the eligibility
pass; it never returns an unhealthy or breaker-vetoed instance. -/
theorem C5_selection_eligible (s : LBState) (alg : String) (now : ℚ)
    (inst : OptimizedMLXInstance) (h : (selectInstance s alg now).2 = some inst) :
    inst.healthy = true ∧
    ∃ p ∈ s.pairs, p.1 = inst ∧ (p.2.can_attempt now).2 = true := by
  have hmem : inst ∈ healthyInstances s now := by
    unfold selectInstance at h
    simp only at h
    by_cases h0 : (healthyInstances s now).isEmpty
    · simp [h0] at h
    · rw [if_neg h0] at h
      split_ifs at h <;> exact pickBy_mem _ _ _ h
  unfold healthyInstances steppedPairs at hmem
  rcases List.mem_map.mp hmem with ⟨q, hq, hq2⟩
  rcases List.mem_filter.mp hq with ⟨hq3, hq4⟩
  rcases List.mem_map.mp hq3 with ⟨p, hp, hpe⟩
  subst hpe
  unfold eligibleStep at hq2 hq4
  simp only at hq2 hq4
  rw [Bool.and_eq_true] at hq4
  exact ⟨hq2 ▸ hq4.1, p, hp, hq2, hq4.2⟩

/-- Witness for claim C5: with one healthy instance under a closed breaker,
the selected instance is that instance and satisfies both conditions. -/
theorem C5_selection_eligible_witness :
    (initInstance 0 "localhost" 8080 0).healthy = true ∧
    ∃ p ∈ (⟨[(initInstance 0 "localhost" 8080 0, EnhancedCircuitBreaker.init 5 60)]⟩
        : LBState).pairs,
      p.1 = initInstance 0 "localhost" 8080 0 ∧ (p.2.can_attempt 0).2 = true :=
  C5_selection_eligible
    ⟨[(initInstance 0 "localhost" 8080 0, EnhancedCircuitBreaker.init 5 60)]⟩
    "performance" 0 (initInstance 0 "localhost" 8080 0) (by decide)

/-- Claim C6.  When the first forwarded attempt returns a non-200 status,
the dispatcher makes up to `max_retries` further attempts on the same
instance, sleeping `0.5 * 2 ^ attempt` seconds before attempt number
`attempt` (the delay list of an all-failing run is exactly
`[0.5 * 2 ^ 0, ..., 0.5 * 2 ^ (max_retries - 1)]`, and the delay list is
never longer than `max_retries`); when every retry fails the client
receives HTTP status 500 with an error message body. -/
theorem C6_bounded_retry (s : LBState) (now : ℚ) (prompt : String)
    (first : AttemptResult) (env : Nat → AttemptResult) (max_retries : Nat)
    (inst : OptimizedMLXInstance) (st : Nat) (u : Option ℚ)
    (hsel : (selectInstance s "performance" now).2 = some inst)
    (hfirst : first.outcome = .response st u) (hst : st ≠ 200)
    (hfail : ∀ i, i < max_retries → (env i).isSuccess = false) :
    (handleCompletionRequest s now prompt first env max_retries).2
      = ⟨500, some ("Internal server error: All retry attempts failed for instance "
          ++ toString inst.id)⟩ ∧
    (∀ (inst0 : OptimizedMLXInstance) (cb0 : EnhancedCircuitBreaker) (est : ℚ),
      (retryRequest inst0 cb0 est env max_retries).2.2.1
        = (List.range max_retries).map (fun i => (1/2 : ℚ) * 2 ^ i)) ∧
    (∀ (inst0 : OptimizedMLXInstance) (cb0 : EnhancedCircuitBreaker) (est : ℚ)
        (env2 : Nat → AttemptResult) (m : Nat),
      (retryRequest inst0 cb0 est env2 m).2.2.1.length ≤ m) := by
  refine ⟨?_, ?_, ?_⟩
  · have hfr := forwardRequest_allfail inst
      (lookupBreaker (selectInstance s "performance" now).1 inst.id) prompt first env
      max_retries st u hfirst hst hfail
    unfold handleCompletionRequest
    simp only
    rw [hsel]
    simp only [hfr]
    rw [← String.append_assoc]
    rfl
  · intro inst0 cb0 est
    have h1 := (retryGo_allfail est env max_retries 0 inst0 cb0
      (fun i hi => by simpa using hfail i hi)).1
    simpa [retryRequest, Nat.zero_add] using h1
  · intro inst0 cb0 est env2 m
    exact retryGo_length est env2 m 0 inst0 cb0

/-- Witness for claim C6 at concrete inputs: a single-instance balancer
whose worker always answers 500 produces the 500 response with the
retry-exhaustion message, and the retry delays are `[0.5, 1.0]`. -/
theorem C6_bounded_retry_witness :
    (handleCompletionRequest
        ⟨[(initInstance 0 "localhost" 8080 0, EnhancedCircuitBreaker.init 5 60)]⟩ 0 "hi"
        ⟨.response 500 none, 10, 1⟩ (fun _ => ⟨.response 500 none, 10, 1⟩) 2).2
      = ⟨500, some ("Internal server error: All retry attempts failed for instance "
          ++ toString (initInstance 0 "localhost" 8080 0).id)⟩ ∧
    (∀ (inst0 : OptimizedMLXInstance) (cb0 : EnhancedCircuitBreaker) (est : ℚ),
      (retryRequest inst0 cb0 est (fun _ => ⟨.response 500 none, 10, 1⟩) 2).2.2.1
        = (List.range 2).map (fun i => (1/2 : ℚ) * 2 ^ i)) ∧
    (∀ (inst0 : OptimizedMLXInstance) (cb0 : EnhancedCircuitBreaker) (est : ℚ)
        (env2 : Nat → AttemptResult) (m : Nat),
      (retryRequest inst0 cb0 est env2 m).2.2.1.length ≤ m) :=
  C6_bounded_retry
    ⟨[(initInstance 0 "localhost" 8080 0, EnhancedCircuitBreaker.init 5 60)]⟩ 0 "hi"
    ⟨.response 500 none, 10, 1⟩ (fun _ => ⟨.response 500 none, 10, 1⟩) 2
    (initInstance 0 "localhost" 8080 0) 500 none (by decide) rfl (by decide)
    (fun i _ => rfl)

/-- Claim C7.  `_restart_instance` keeps `restart_count ≤
max_restart_attempts`: a restart requested at or above the budget is
refused, sets the status to `"failed"` without incrementing the count or
spawning a process, and a further restart of the refused instance refuses
again identically, so the instance stays `"failed"`. -/
theorem C7_restart_budget (inst : OptimizedServerInstance) (maxAttempts : Nat)
    (cooldown now now2 : ℚ) (pid pid2 : Nat) (o o2 : StartOutcome) :
    (inst.restart_count ≤ maxAttempts →
      (restartInstance inst maxAttempts cooldown now pid o).1.restart_count
        ≤ maxAttempts) ∧
    (maxAttempts ≤ inst.restart_count →
      restartInstance inst maxAttempts cooldown now pid o
        = ({ inst with status := "failed" }, false) ∧
      restartInstance { inst with status := "failed" } maxAttempts cooldown now2 pid2 o2
        = ({ inst with status := "failed" }, false)) := by
  constructor
  · intro hle
    unfold restartInstance
    split
    · simpa using hle
    · split
      · simpa using hle
      · rename_i hlt _
        rw [startInstance_restart_count, stopInstance_restart_count]
        simp only
        omega
  · intro hge
    constructor
    · unfold restartInstance
      rw [if_pos hge]
    · unfold restartInstance
      rw [if_pos (show maxAttempts ≤
          ({ inst with status := "failed" } : OptimizedServerInstance).restart_count
          from hge)]

/-- Witness for claim C7: an instance at `restart_count = 3` with
`max_restart_attempts = 3` is refused and marked failed with the count
unchanged. -/
theorem C7_restart_budget_witness :
    ((restartInstance (mkServerInstance "running" 3) 3 60 100 42 .healthy).1.restart_count
      ≤ 3) ∧
    (restartInstance (mkServerInstance "running" 3) 3 60 100 42 .healthy
      = (mkServerInstance "failed" 3, false)) := by
  have h := C7_restart_budget (mkServerInstance "running" 3) 3 60 100 200 42 43
    .healthy .healthy
  exact ⟨h.1 (by decide), (h.2 (by decide)).1⟩

/-- Claim C8 (amended).  `_start_instance` is a no-op (warn and return,
spawn nothing) exactly when the instance status is `"running"`; from any
other status — `"stopped"`, `"failed"`, or also `"starting"` — the start
proceeds: it records `start_time`, spawns a worker process unless the spawn
itself errors, and ends in `"running"` on a healthy poll or `"failed"`
otherwise.  The original claim, that a `"starting"` instance is also
refused, fails on the code: the guard tests only `status == "running"`. -/
theorem C8_start_guard_amended (inst : OptimizedServerInstance) (now : ℚ) (pid : Nat)
    (o : StartOutcome) :
    (inst.status = "running" → startInstance inst now pid o = (inst, false)) ∧
    (inst.status ≠ "running" →
      (startInstance inst now pid o).1.start_time = some now ∧
      (o ≠ .spawnError → (startInstance inst now pid o).2 = true) ∧
      (startInstance inst now pid o).1.status
        = (if o = .healthy then "running" else "failed")) := by
  constructor
  · intro h
    unfold startInstance
    rw [if_pos h]
  · intro h
    unfold startInstance
    rw [if_neg h]
    cases o <;> simp

/-- Witness for claim C8 at concrete inputs: a running instance is left
untouched with nothing spawned, while a starting instance does get a
process spawned. -/
theorem C8_start_guard_amended_witness :
    (startInstance (mkServerInstance "running" 0) 5 42 .healthy
      = (mkServerInstance "running" 0, false)) ∧
    (startInstance (mkServerInstance "starting" 0) 5 42 .healthy).2 = true := by
  constructor
  · exact (C8_start_guard_amended _ 5 42 .healthy).1 rfl
  · exact ((C8_start_guard_amended _ 5 42 .healthy).2 (by decide)).2.1 (by decide)

/-- Counterexample to claim C8 as stated: starting an instance whose
status is `"starting"` is not a no-op — the call spawns a process and the
instance ends up `"running"`. -/
theorem C8_counterexample :
    (startInstance (mkServerInstance "starting" 0) 5 42 .healthy).2 = true ∧
    (startInstance (mkServerInstance "starting" 0) 5 42 .healthy).1.status = "running" ∧
    (mkServerInstance "starting" 0).status = "starting" := by
  refine ⟨rfl, rfl, rfl⟩

/-- Claim C9.  For a forwarded request that receives a response, the token
count used for accounting is `usage.total_tokens` when present and
otherwise the estimate (1.3 times the whitespace word count of the
prompt); with positive latency the throughput sample appended to the
bounded window equals `tokens / (latency_ms / 1000)`, and the latency is
appended to the latency window. -/
theorem C9_token_throughput (inst : OptimizedMLXInstance) (cb : EnhancedCircuitBreaker)
    (prompt : String) (st : Nat) (u : Option ℚ) (rt now : ℚ) (h : 0 < rt) :
    (forwardToInstance inst cb (estimatedTokens prompt) (.response st u)
        rt now).1.throughput_history.getLast?
      = some (u.getD (estimatedTokens prompt) / (rt / 1000)) ∧
    (forwardToInstance inst cb (estimatedTokens prompt) (.response st u)
        rt now).1.tokens_processed
      = inst.tokens_processed + u.getD (estimatedTokens prompt) ∧
    (forwardToInstance inst cb (estimatedTokens prompt) (.response st u)
        rt now).1.response_times.getLast? = some rt ∧
    estimatedTokens prompt = ((pythonSplit prompt).length : ℚ) * (13/10) := by
  refine ⟨?_, ?_, ?_, rfl⟩
  · simp only [forwardToInstance]
    split <;>
      simp [dequeAppend_getLast 10 (by norm_num), h]
  · simp only [forwardToInstance]
    split <;> rfl
  · simp only [forwardToInstance]
    split <;>
      simp [dequeAppend_getLast 100 (by norm_num)]

/-- Witness for claim C9: a response with latency 200 ms and
`usage.total_tokens = 100` appends exactly `500` tokens per second. -/
theorem C9_token_throughput_witness :
    (forwardToInstance (initInstance 0 "localhost" 8080 0)
        (EnhancedCircuitBreaker.init 5 60) (estimatedTokens "hi")
        (.response 200 (some 100)) 200 1).1.throughput_history.getLast?
      = some 500 ∧ (0 : ℚ) < 200 := by
  constructor
  · have h := (C9_token_throughput (initInstance 0 "localhost" 8080 0)
      (EnhancedCircuitBreaker.init 5 60) "hi" 200 (some 100) 200 1 (by norm_num)).1
    rw [h]
    norm_num
  · norm_num

/-- Claim C10.  `select_instance` with an algorithm string that is none of
`round_robin`, `least_connections`, `response_time`, or `performance`
behaves identically to the `performance` algorithm: the two calls are
equal, an empty eligible set yields `none`, and a selected instance
maximizes `performance_score` over the eligible set. -/
theorem C10_unknown_algorithm (s : LBState) (alg : String) (now : ℚ)
    (h1 : alg ≠ "round_robin") (h2 : alg ≠ "least_connections")
    (h3 : alg ≠ "response_time") (h4 : alg ≠ "performance") :
    selectInstance s alg now = selectInstance s "performance" now ∧
    (healthyInstances s now = [] → (selectInstance s alg now).2 = none) ∧
    (∀ y, (selectInstance s alg now).2 = some y →
      ∀ x ∈ healthyInstances s now,
        x.performance_score ≤ y.performance_score) := by
  have heq : selectInstance s alg now = selectInstance s "performance" now := by
    unfold selectInstance
    simp [h1, h2, h3, h4]
  refine ⟨heq, ?_, ?_⟩
  · intro he
    unfold selectInstance
    simp [he]
  · intro y hy x hx
    have hsel : pickBy perfBetter (healthyInstances s now) = some y := by
      rw [heq] at hy
      unfold selectInstance at hy
      by_cases he : (healthyInstances s now).isEmpty
      · simp [he] at hy
      · rw [if_neg he] at hy
        simpa using hy
    exact pickBy_max_key OptimizedMLXInstance.performance_score _ y hsel x hx

/-- Witness for claim C10: the unrecognized algorithm string
`"weighted_random"` selects exactly as `"performance"` does on a
single-instance balancer. -/
theorem C10_unknown_algorithm_witness :
    selectInstance ⟨[(initInstance 0 "localhost" 8080 0, EnhancedCircuitBreaker.init 5 60)]⟩
        "weighted_random" 0
      = selectInstance ⟨[(initInstance 0 "localhost" 8080 0, EnhancedCircuitBreaker.init 5 60)]⟩
        "performance" 0 :=
  (C10_unknown_algorithm _ "weighted_random" 0 (by decide) (by decide) (by decide)
    (by decide)).1
